import Mathlib

/-!
Verification development for the KaraokeVideoMaker repository
(single source file `src/slideshow.py`).

The Python source is shallowly embedded below:
* Python strings are Lean `String`; the handful of string primitives the
  source uses (`str.lower`, `str.startswith`, `str.endswith`,
  `os.path.join`) are re-implemented over the character list so that they
  evaluate inside the kernel.  Filenames in this program are ASCII, where
  these agree with Python exactly.
* Durations (`audio.duration`, `slide_duration`, `capture_time`) are
  modelled as exact rationals `ℚ`.  The Python source computes them in IEEE
  doubles; every claim below is about the exact arithmetic the spec states.
* The random source (`random.shuffle`) is injected as an oracle
  `shuffle : ℕ → List String → List String` giving the outcome of the i-th
  shuffle pass; faithfulness of `random.shuffle` is the hypothesis that
  each `shuffle i l` is a permutation of `l`.
* Fallible operations return `Except PyError _`.  `PyError` is the set of
  exceptions this source can actually surface; the spec's taxonomy names
  `valueError` raised at lines 61/63/145 `ConfigurationError`, and decode /
  audio-open failures `AssetError`.  Note there is no network-error
  constructor: `download_image` runs `subprocess.run` without `check=True`
  and therefore can never raise on a failed fetch.
-/

/-- Exceptions the Python source can raise (see header comment for the
correspondence with the spec's error taxonomy). -/
inductive PyError where
  | valueError : String → PyError
  | typeError : String → PyError
  | keyError : String → PyError
  | decodeError : String → PyError
  | audioError : String → PyError
  deriving DecidableEq, Repr

/-- ASCII lower-casing of one character, as `str.lower` acts on ASCII. -/
def lowerChar (c : Char) : Char :=
  if 65 ≤ c.toNat ∧ c.toNat ≤ 90 then Char.ofNat (c.toNat + 32) else c

/-- Python `s.lower()` (ASCII fragment). -/
def pyLower (s : String) : String := String.mk (s.data.map lowerChar)

/-- Python `s.endswith(t)`. -/
def strEndsWith (s t : String) : Bool := t.data.isSuffixOf s.data

/-- Python `s.startswith(t)`. -/
def strStartsWith (s t : String) : Bool := t.data.isPrefixOf s.data

/-- Python `os.path.join(d, f)` for POSIX paths (the only uses in the source
join a directory and a bare filename). -/
def joinPath (d f : String) : String :=
  if strStartsWith f "/" then f
  else if d = "" then f
  else if strEndsWith d "/" then d ++ f
  else d ++ "/" ++ f

/-- A value stored in the parsed song-template dictionary: every key maps to
a string except `Singers Images`, which `parse_template` (line 39) stores as
a list of strings. -/
inductive SVal where
  | str : String → SVal
  | list : List String → SVal
  deriving DecidableEq, Repr

/-- The `song_info` dictionary: an insertion-ordered mapping, modelled as an
association list (lookups via `List.lookup`). -/
abbrev SongInfo := List (String × SVal)

/-- Python `str(v)` as used inside f-strings (line 148).  For the list case
the exact rendering is immaterial to every claim (that case never carries a
list in any reachable run); element quoting is abstracted away. -/
def svalStr : SVal → String
  | .str s => s
  | .list xs => "[" ++ String.intercalate ", " xs ++ "]"

/-- Iterating the value of `Singers Images` (line 141): a Python list yields
its elements; a Python string yields its characters. -/
def svalKeys : SVal → List String
  | .list xs => xs
  | .str s => s.data.map (fun c => String.mk [c])

/-- The fallback metadata of `__init__` line 53 (`song_info or {...}`). -/
def defaultSongInfo : SongInfo :=
  [("Song", .str "Unknown Title"), ("Film", .str "Unknown Album"),
   ("Singers (Original)", .str "Unknown Artists"),
   ("Singers (Karaoke)", .str "Unknown Singer")]

/-- The state built by `SlideShowGenerator.__init__` (lines 44-58). -/
structure SlideShowGenerator where
  images_dir : String
  music_path : String
  output_path : String
  frame_path : String
  video_path : String
  width : ℕ
  height : ℕ
  footer_height : ℕ
  song_info : SongInfo
  deriving DecidableEq, Repr

/-- `SlideShowGenerator.__init__` (lines 44-63), in source evaluation order:
line 48 subscripts `song_info['Song']` (raising `TypeError` on `None`,
`KeyError` on a missing key, `TypeError` on a list value) BEFORE line 53
assigns the `song_info or {...}` fallback and before the directory checks of
lines 60-63.  Filesystem existence is injected as the two booleans. -/
def SlideShowGenerator.init (images_dir music_path output_path : String)
    (images_dir_exists music_exists : Bool) (song_info : Option SongInfo) :
    Except PyError SlideShowGenerator :=
  match song_info with
  | none => .error (.typeError "NoneType object is not subscriptable")
  | some si =>
    match List.lookup "Song" si with
    | none => .error (.keyError "Song")
    | some (.list _) => .error (.typeError "can only concatenate str to list")
    | some (.str song) =>
      let fp := joinPath output_path (song ++ ".jpg")
      let vp := joinPath output_path (song ++ ".mp4")
      let info := if si.isEmpty then defaultSongInfo else si
      if images_dir_exists = false then
        .error (.valueError ("Image directory " ++ images_dir ++ " does not exist"))
      else if music_exists = false then
        .error (.valueError ("Music file " ++ music_path ++ " does not exist"))
      else
        .ok { images_dir := images_dir, music_path := music_path,
              output_path := output_path, frame_path := fp, video_path := vp,
              width := 1920, height := 1080, footer_height := 120,
              song_info := info }

/-- The raster extensions accepted at line 141. -/
def imageExtensions : List String := [".jpg", ".jpeg", ".png", ".bmp", ".gif"]

/-- Line 141, first conjunct: `f.lower().endswith(('.jpg', ...))`. -/
def isImageFile (f : String) : Bool :=
  imageExtensions.any (fun e => strEndsWith (pyLower f) e)

/-- Line 141, second conjunct:
`any(f.startswith(img + ".") for img in singers)` — a case-sensitive match of
a singer key followed by the `.` separator. -/
def matchesSinger (singers : List String) (f : String) : Bool :=
  singers.any (fun k => strStartsWith f (k ++ "."))

/-- Lines 138-142: the filtered image catalog, each entry joined onto the
image directory. -/
def listImageFiles (images_dir : String) (dir_listing singers : List String) :
    List String :=
  (dir_listing.filter (fun f => isImageFile f && matchesSinger singers f)).map
    (fun f => joinPath images_dir f)

/-- `download_image` (lines 11-22): runs `wget` through `subprocess.run`
WITHOUT `check=True`, so the child's exit status `wget_exit` is discarded
and the function returns `None` unconditionally — a failed fetch raises
nothing. -/
def download_image (url destination_folder filename : String) (wget_exit : ℤ) :
    Unit := ()

/-- Line 155: `slides_needed = math.ceil(total_duration / slide_duration)`. -/
def slides_needed (total_duration slide_duration : ℚ) : ℤ :=
  ⌈total_duration / slide_duration⌉

/-- Line 158: `repeats_needed = math.ceil(slides_needed / len(image_files))`
(Python 3 true division). -/
def repeats_needed (sn : ℤ) (numImages : ℕ) : ℤ := ⌈(sn : ℚ) / (numImages : ℚ)⌉

/-- Lines 159-165: the poster path is the single seed entry, each of the
`repeats_needed` loop iterations appends one shuffled copy of
`image_files` (the i-th shuffle outcome is `shuffle i image_files`), and the
combined list is truncated to `slides_needed` entries. -/
def extended_image_list (posterPath : String) (image_files : List String)
    (shuffle : ℕ → List String → List String) (sn : ℤ) : List String :=
  let r := (repeats_needed sn image_files.length).toNat
  (posterPath :: ((List.range r).map (fun i => shuffle i image_files)).flatten).take
    sn.toNat

/-- Lines 174-177: `method='chain'` concatenation of `numClips` slides of
`slide_duration` seconds each. -/
def concat_duration (numClips : ℕ) (slide_duration : ℚ) : ℚ :=
  numClips * slide_duration

/-- Lines 180-181: `if final_clip.duration > total_duration:
final_clip = final_clip.with_duration(total_duration)`. -/
def trimmed_duration (concat_dur total_duration : ℚ) : ℚ :=
  if total_duration < concat_dur then total_duration else concat_dur

/-- The visual content of the chained timeline: the slide shown at playback
time `t` is the one at index `⌊t / slide_duration⌋` while `t` is inside the
playable duration, and nothing outside it.  Trimming (`with_duration`) only
shrinks the playable window; it re-renders nothing. -/
def visible_slide (plan : List String) (slide_duration dur t : ℚ) :
    Option String :=
  if 0 ≤ t ∧ t < dur then plan.get? (⌊t / slide_duration⌋).toNat else none

/-- The observable outcome of a successful `create_music_driven_slideshow`
run: the plan that was rendered, the trimmed playable duration, whether the
still frame was captured (line 184: `capture_time < final_clip.duration`),
and the two output paths. -/
structure SlideshowResult where
  plan : List String
  final_duration : ℚ
  frame_captured : Bool
  video_path : String
  frame_path : String
  deriving DecidableEq, Repr

/-- `create_music_driven_slideshow` (lines 136-203) in source order:
filter the directory listing (137-142), fail on an empty catalog (144-145),
fetch the poster ignoring the `wget` exit status (147-148), open the audio
track (151-152), plan (154-165), render every planned slide — the first
undecodable image aborts the run (167-171), concatenate and trim (173-181),
test the capture condition (183-184) and write the outputs.  External
effects are injected: `dir_listing` is `os.listdir`, `audio_opens` and
`audio_duration` describe `AudioFileClip`, `decodable p` tells whether
`Image.open(p)` succeeds, and `shuffle` is the random source. -/
def create_music_driven_slideshow (g : SlideShowGenerator)
    (dir_listing : List String) (wget_exit : ℤ) (audio_opens : Bool)
    (audio_duration : ℚ) (decodable : String → Bool)
    (shuffle : ℕ → List String → List String)
    (slide_duration capture_time : ℚ) : Except PyError SlideshowResult :=
  match List.lookup "Singers Images" g.song_info with
  | none => .error (.keyError "Singers Images")
  | some sv =>
    let image_files := listImageFiles g.images_dir dir_listing (svalKeys sv)
    if image_files.isEmpty then
      .error (.valueError "No image files found in the specified directory")
    else
      match List.lookup "Poster Image" g.song_info,
            List.lookup "Song" g.song_info with
      | none, _ => .error (.keyError "Poster Image")
      | some _, none => .error (.keyError "Song")
      | some posterUrl, some songv =>
        let _ := download_image (svalStr posterUrl) g.output_path
          (svalStr songv ++ " Poster.jpg") wget_exit
        if audio_opens = false then .error (.audioError g.music_path)
        else
          let sn := slides_needed audio_duration slide_duration
          let posterPath :=
            joinPath g.output_path (svalStr songv ++ " Poster.jpg")
          let plan := extended_image_list posterPath image_files shuffle sn
          match plan.find? (fun p => !(decodable p)) with
          | some p => .error (.decodeError p)
          | none =>
            let final_dur :=
              trimmed_duration (concat_duration plan.length slide_duration)
                audio_duration
            .ok { plan := plan, final_duration := final_dur,
                  frame_captured := decide (capture_time < final_dur),
                  video_path := g.video_path, frame_path := g.frame_path }

/-- Lines 74-83: the aspect-fit resize.  `img_ratio = w / h` is compared with
`target_ratio = 1920 / 1080`; the wider branch keeps full canvas width and
truncates `width / img_ratio` to an int, the other keeps full canvas height
and truncates `height * img_ratio`.  Exact rational arithmetic stands in for
the Python doubles. -/
def resize_dims (w h : ℕ) : ℕ × ℕ :=
  if (1920 : ℚ) / 1080 < (w : ℚ) / h then (1920, 1920 * h / w)
  else (1080 * w / h, 1080)

/-- Lines 92-93: the centring offsets `//2` of the paste of the resized
image onto the black 1920x1080 background. -/
def paste_pos (nw nh : ℕ) : ℕ × ℕ := ((1920 - nw) / 2, (1080 - nh) / 2)

/-- An RGB pixel. -/
abbrev RGB := ℕ × ℕ × ℕ

/-- Lines 89-94: the black 1920x1080 background with the resized source
image (given as a pixel function `resized`) pasted at the centring offsets;
every pixel outside the pasted rectangle stays `(0, 0, 0)`. -/
def letterboxed (w h : ℕ) (resized : ℕ → ℕ → RGB) (x y : ℕ) : RGB :=
  let nw := (resize_dims w h).1
  let nh := (resize_dims w h).2
  let px := (paste_pos nw nh).1
  let py := (paste_pos nw nh).2
  if px ≤ x ∧ x < px + nw ∧ py ≤ y ∧ y < py + nh then
    resized (x - px) (y - py)
  else (0, 0, 0)

/-- Line 99: `alpha = int((y / self.footer_height) ** 1.5 * 160)` with
`footer_height = 120`.  Over the reals
`(y/120)^1.5 * 160 = sqrt(160^2 * y^3 / 120^3)`, and the truncation of a
real square root of a rational `a/b` is `Nat.sqrt (a / b)` (natural
division); the theorem `footer_alpha_eq_floor` below proves this embedding
equal to the floor of the real-valued formula.  (The Python doubles cannot
disturb the truncation: for `0 ≤ y < 120` the exact value is never closer
than about `2e-5` to an integer it does not equal, far beyond the `1e-13`
double rounding error.) -/
def footer_alpha (y : ℕ) : ℕ := Nat.sqrt (160 ^ 2 * y ^ 3 / 120 ^ 3)

/-- Lines 97-101: the RGBA value written by `putpixel` at column `x` of row
`y` of the footer overlay — the same `(0, 0, 0, alpha)` tuple for every
column of the row. -/
def footer_pixel (x y : ℕ) : ℕ × ℕ × ℕ × ℕ := (0, 0, 0, footer_alpha y)

/-- Line 105, `footer.convert('L')`: PIL converts RGBA to L with the ITU-R
601-2 luma transform `L = (299 R + 587 G + 114 B) / 1000` applied to the RGB
bands; the alpha band is DROPPED. -/
def rgba_to_l (p : ℕ × ℕ × ℕ × ℕ) : ℕ :=
  (p.1 * 299 + p.2.1 * 587 + p.2.2.1 * 114) / 1000

/-- PIL `paste` with an 8-bit mask `m` blends each channel as
`(bg * (255 - m) + fg * m + 127) / 255`. -/
def paste_blend (m bg fg : ℕ) : ℕ := (bg * (255 - m) + fg * m + 127) / 255

/-- Lines 104-105: `background.paste((0,0,0), (0, 960), mask=footer.convert('L'))`
— fill colour black, pasted at vertical offset `1080 - 120 = 960`, masked by
the luma conversion of the RGBA footer overlay. -/
def paste_footer (canvas : ℕ → ℕ → RGB) (x y : ℕ) : RGB :=
  if 960 ≤ y ∧ y < 1080 then
    let m := rgba_to_l (footer_pixel x (y - 960))
    let c := canvas x y
    (paste_blend m c.1 0, paste_blend m c.2.1 0, paste_blend m c.2.2 0)
  else canvas x y

/-- The spec sentence for the footer alpha, rendered exactly: `alpha(y) =
round((y / 120)^1.5 * 160)` clamped to `[0, 255]`.  Over the reals the value
is `sqrt(q)` with `q = 160^2 * y^3 / 120^3`, and
`round(sqrt(q)) = (floor(sqrt(4 q)) + 1) / 2 = (Nat.sqrt (4 a / b) + 1) / 2`
for `q = a / b` (no value of `y` makes `sqrt(q)` an exact half-integer, so
every rounding convention agrees). -/
def footer_alpha_round_spec (y : ℕ) : ℕ :=
  min ((Nat.sqrt (4 * (160 ^ 2 * y ^ 3) / 120 ^ 3) + 1) / 2) 255

/-- A concrete generator fixture (as `__init__` would build it for song `X`
with singer key `a`), used by witness and counterexample theorems. -/
def sampleGen : SlideShowGenerator :=
  { images_dir := "imgs", music_path := "m.mp3", output_path := "out",
    frame_path := "out/X.jpg", video_path := "out/X.mp4",
    width := 1920, height := 1080, footer_height := 120,
    song_info := [("Song", SVal.str "X"),
                  ("Poster Image", SVal.str "http://example.com/p.jpg"),
                  ("Singers Images", SVal.list ["a"])] }

/-! ## Shared lemmas -/

/-- Evaluation helper for `Nat.sqrt` (its recursion is opaque to `decide`). -/
lemma nat_sqrt_eval {n a : ℕ} (h1 : a * a ≤ n) (h2 : n < (a + 1) * (a + 1)) :
    Nat.sqrt n = a := (Nat.eq_sqrt.mpr ⟨h1, h2⟩).symm

/-- Truncating the real square root of `a / b` is `Nat.sqrt` of the natural
division `a / b`. -/
lemma nat_sqrt_div (a b : ℕ) (hb : 0 < b) :
    Nat.sqrt (a / b) = ⌊Real.sqrt ((a : ℝ) / (b : ℝ))⌋₊ := by
  have hbR : (0 : ℝ) < (b : ℝ) := by exact_mod_cast hb
  have hq : (0 : ℝ) ≤ (a : ℝ) / (b : ℝ) := by positivity
  apply le_antisymm
  · apply Nat.le_floor
    rw [Real.le_sqrt (by positivity) hq]
    calc ((Nat.sqrt (a / b) : ℝ)) ^ 2 = ((Nat.sqrt (a / b) ^ 2 : ℕ) : ℝ) := by
          push_cast; ring
      _ ≤ ((a / b : ℕ) : ℝ) := by exact_mod_cast Nat.sqrt_le' (a / b)
      _ ≤ (a : ℝ) / (b : ℝ) := Nat.cast_div_le
  · rw [Nat.le_sqrt, Nat.le_div_iff_mul_le hb]
    have h1 : ((⌊Real.sqrt ((a : ℝ) / (b : ℝ))⌋₊ : ℝ)) ≤
        Real.sqrt ((a : ℝ) / (b : ℝ)) := Nat.floor_le (Real.sqrt_nonneg _)
    have h2 : ((⌊Real.sqrt ((a : ℝ) / (b : ℝ))⌋₊ : ℝ)) ^ 2 ≤ (a : ℝ) / (b : ℝ) := by
      calc ((⌊Real.sqrt ((a : ℝ) / (b : ℝ))⌋₊ : ℝ)) ^ 2
          ≤ Real.sqrt ((a : ℝ) / (b : ℝ)) ^ 2 := by
            apply pow_le_pow_left₀ (Nat.cast_nonneg _) h1
        _ = (a : ℝ) / (b : ℝ) := Real.sq_sqrt hq
    have h3 : ((⌊Real.sqrt ((a : ℝ) / (b : ℝ))⌋₊ : ℝ)) ^ 2 * (b : ℝ) ≤ (a : ℝ) := by
      have := mul_le_mul_of_nonneg_right h2 hbR.le
      rwa [div_mul_cancel₀ _ hbR.ne'] at this
    have h4 : ((⌊Real.sqrt ((a : ℝ) / (b : ℝ))⌋₊ *
        ⌊Real.sqrt ((a : ℝ) / (b : ℝ))⌋₊ * b : ℕ) : ℝ) ≤ (a : ℝ) := by
      push_cast
      nlinarith [h3]
    exact_mod_cast h4

/-- The embedding `footer_alpha` is exactly the integer truncation of the
real-valued formula of source line 99. -/
lemma footer_alpha_eq_floor (y : ℕ) :
    footer_alpha y = ⌊((y : ℝ) / 120) ^ (1.5 : ℝ) * 160⌋₊ := by
  have hx : (0 : ℝ) ≤ (y : ℝ) / 120 := by positivity
  have h1 : ((y : ℝ) / 120) ^ (1.5 : ℝ) = Real.sqrt (((y : ℝ) / 120) ^ 3) := by
    rw [show (1.5 : ℝ) = ((3 : ℕ) : ℝ) * (1 / 2) by norm_num, Real.rpow_mul hx,
      Real.rpow_natCast, Real.sqrt_eq_rpow]
  have key : ((y : ℝ) / 120) ^ (1.5 : ℝ) * 160
      = Real.sqrt (((160 ^ 2 * y ^ 3 : ℕ) : ℝ) / ((120 ^ 3 : ℕ) : ℝ)) := by
    rw [h1, ← Real.sqrt_sq (show (0 : ℝ) ≤ 160 by norm_num),
      ← Real.sqrt_mul (by positivity)]
    congr 1
    push_cast
    ring
  rw [show footer_alpha y = Nat.sqrt (160 ^ 2 * y ^ 3 / 120 ^ 3) from rfl, key,
    nat_sqrt_div _ _ (by norm_num)]

/-- With mask value `0`, the PIL blend leaves the background untouched. -/
lemma paste_blend_zero (v : ℕ) : paste_blend 0 v 0 = v := by
  simp only [paste_blend]
  omega

/-- The luma conversion of any footer-overlay pixel is `0`: its RGB bands
are all black, and `convert` discards the alpha band. -/
lemma footer_mask_luma_zero (x y : ℕ) : rgba_to_l (footer_pixel x y) = 0 := by
  simp [rgba_to_l, footer_pixel]

/-- The footer paste of lines 104-105 is the identity on every pixel: its
mask `footer.convert('L')` is identically zero. -/
lemma paste_footer_id (canvas : ℕ → ℕ → RGB) (x y : ℕ) :
    paste_footer canvas x y = canvas x y := by
  simp only [paste_footer, footer_mask_luma_zero, paste_blend_zero]
  split
  · rfl
  · rfl

/-! ## Claims -/

/-- Claim C3, counterexample: the source computes the footer alpha with
`int(...)` (truncation), not `round(...)`.  At row offset `y = 60` the exact
value is `sqrt(3200) = 56.568...`, which the code truncates to `56` while
the claimed rounding formula gives `57`. -/
theorem footer_alpha_round_counterexample :
    footer_alpha 60 = 56 ∧ footer_alpha_round_spec 60 = 57 := by
  constructor
  · show Nat.sqrt (160 ^ 2 * 60 ^ 3 / 120 ^ 3) = 56
    rw [show (160 ^ 2 * 60 ^ 3 / 120 ^ 3 : ℕ) = 3200 by decide]
    exact nat_sqrt_eval (by decide) (by decide)
  · show min ((Nat.sqrt (4 * (160 ^ 2 * 60 ^ 3) / 120 ^ 3) + 1) / 2) 255 = 57
    rw [show (4 * (160 ^ 2 * 60 ^ 3) / 120 ^ 3 : ℕ) = 12800 by decide,
      nat_sqrt_eval (show 113 * 113 ≤ 12800 by decide) (by decide)]
    decide

/-- Claim C3, amended: for every row offset `y` of the footer band the
overlay alpha equals the integer truncation (floor, not round) of
`(y / 120)^1.5 * 160`; it is written uniformly across all columns of the
row, is non-decreasing in `y`, vanishes at `y = 0`, and peaks at
`footer_alpha 119 = 158` (approximately 160, never fully opaque). -/
theorem footer_alpha_floor_props :
    (∀ y : ℕ, footer_alpha y = ⌊((y : ℝ) / 120) ^ (1.5 : ℝ) * 160⌋₊)
    ∧ (∀ y z : ℕ, y ≤ z → footer_alpha y ≤ footer_alpha z)
    ∧ footer_alpha 0 = 0
    ∧ footer_alpha 119 = 158
    ∧ (∀ y : ℕ, y < 120 → footer_alpha y ≤ 158 ∧ footer_alpha y < 255)
    ∧ (∀ x1 x2 y : ℕ, footer_pixel x1 y = footer_pixel x2 y) := by
  have hmono : ∀ y z : ℕ, y ≤ z → footer_alpha y ≤ footer_alpha z := by
    intro y z h
    exact Nat.sqrt_le_sqrt (Nat.div_le_div_right
      (Nat.mul_le_mul (le_refl (160 ^ 2)) (Nat.pow_le_pow_left h 3)))
  have h119 : footer_alpha 119 = 158 := by
    show Nat.sqrt (160 ^ 2 * 119 ^ 3 / 120 ^ 3) = 158
    rw [show (160 ^ 2 * 119 ^ 3 / 120 ^ 3 : ℕ) = 24965 by decide]
    exact nat_sqrt_eval (by decide) (by decide)
  refine ⟨footer_alpha_eq_floor, hmono, ?_, h119, ?_, fun x1 x2 y => rfl⟩
  · show Nat.sqrt (160 ^ 2 * 0 ^ 3 / 120 ^ 3) = 0
    norm_num
  · intro y hy
    have hle : footer_alpha y ≤ 158 := h119 ▸ hmono y 119 (by omega)
    exact ⟨hle, by omega⟩

/-- Claim C3, witness for the amended theorem at concrete inputs. -/
theorem footer_alpha_floor_props_instance :
    (59 : ℕ) ≤ 60 ∧ footer_alpha 59 ≤ footer_alpha 60 ∧ (60 : ℕ) < 120 ∧
      footer_alpha 60 < 255 :=
  ⟨by decide, footer_alpha_floor_props.2.1 59 60 (by decide), by decide,
    (footer_alpha_floor_props.2.2.2.2.1 60 (by decide)).2⟩

/-- Claim C9: constructing `SlideShowGenerator` with `song_info = None`
always raises (`None['Song']` is evaluated at line 48 before the fallback of
line 53), and every successful construction requires `song_info` to contain
the key `Song` — the default metadata mapping is unreachable. -/
theorem song_info_none_unreachable_default :
    (∀ (images_dir music_path output_path : String) (de me : Bool),
      SlideShowGenerator.init images_dir music_path output_path de me none
        = .error (.typeError "NoneType object is not subscriptable"))
    ∧ (∀ (images_dir music_path output_path : String) (de me : Bool)
        (si : SongInfo) (g : SlideShowGenerator),
      SlideShowGenerator.init images_dir music_path output_path de me (some si)
          = .ok g → (List.lookup "Song" si).isSome = true) := by
  constructor
  · intro a b c de me
    rfl
  · intro a b c de me si g h
    cases hl : List.lookup "Song" si with
    | none =>
      rw [SlideShowGenerator.init, hl] at h
      cases h
    | some v => rfl

/-- Claim C9, witness: a successful construction with a concrete
`song_info` containing `Song`. -/
theorem song_info_none_unreachable_default_instance :
    (List.lookup "Song" [("Song", SVal.str "X")]).isSome = true :=
  song_info_none_unreachable_default.2 "d" "m" "o" true true
    [("Song", SVal.str "X")]
    { images_dir := "d", music_path := "m", output_path := "o",
      frame_path := "o/X.jpg", video_path := "o/X.mp4",
      width := 1920, height := 1080, footer_height := 120,
      song_info := [("Song", SVal.str "X")] } rfl

/-- Claim C10: the footer compositing of lines 104-105 modifies NO pixel at
all — `footer.convert('L')` takes the luma of the all-black RGB bands and
drops the alpha band, so the paste mask is identically zero and the paste is
the identity.  Evaluated at the failing input (an all-white canvas, bottom
row of the band): the pixel stays `(255, 255, 255)`, although the overlay
alpha there is `158` and the claimed per-row blend toward black would have
produced `97`. -/
theorem footer_paste_noop_eval :
    (∀ (canvas : ℕ → ℕ → RGB) (x y : ℕ), paste_footer canvas x y = canvas x y)
    ∧ paste_footer (fun _ _ => (255, 255, 255)) 0 1079 = (255, 255, 255)
    ∧ rgba_to_l (footer_pixel 0 119) = 0
    ∧ footer_alpha 119 = 158
    ∧ paste_blend 158 255 0 = 97 := by
  refine ⟨paste_footer_id, paste_footer_id _ _ _, footer_mask_luma_zero 0 119,
    ?_, by decide⟩
  show Nat.sqrt (160 ^ 2 * 119 ^ 3 / 120 ^ 3) = 158
  rw [show (160 ^ 2 * 119 ^ 3 / 120 ^ 3 : ℕ) = 24965 by decide]
  exact nat_sqrt_eval (by decide) (by decide)

/-- Claim C1: for every audio duration `D > 0`, slide duration `S > 0` and
non-empty filtered catalog, and for every random source (any family of
shuffle outcomes that are permutations of the catalog), the produced plan
has exactly `ceil(D/S)` entries (`ceil(D/S) ≥ 1`), its first entry is the
poster, and every subsequent entry is drawn from the filtered catalog — the
poster plus `repeats_needed` passes always reach at least `ceil(D/S)`
entries before truncation. -/
theorem plan_poster_and_length (total_duration slide_duration : ℚ)
    (hD : 0 < total_duration) (hS : 0 < slide_duration)
    (posterPath : String) (image_files : List String) (hne : image_files ≠ [])
    (shuffle : ℕ → List String → List String)
    (hsh : ∀ i, (shuffle i image_files).Perm image_files) :
    (extended_image_list posterPath image_files shuffle
        (slides_needed total_duration slide_duration)).length
      = (slides_needed total_duration slide_duration).toNat
    ∧ 1 ≤ (slides_needed total_duration slide_duration).toNat
    ∧ (extended_image_list posterPath image_files shuffle
        (slides_needed total_duration slide_duration)).head? = some posterPath
    ∧ ∀ x ∈ (extended_image_list posterPath image_files shuffle
        (slides_needed total_duration slide_duration)).tail, x ∈ image_files := by
  set sn : ℤ := slides_needed total_duration slide_duration with hsn_def
  have hsn1 : 1 ≤ sn := by
    have h : 0 < sn := by
      rw [hsn_def]
      unfold slides_needed
      exact Int.ceil_pos.mpr (div_pos hD hS)
    omega
  have hN : 0 < image_files.length := List.length_pos.mpr hne
  set N := image_files.length with hN_def
  set r : ℕ := (repeats_needed sn N).toNat with hr_def
  have hceil0 : 0 ≤ repeats_needed sn N := by
    apply Int.ceil_nonneg
    have h0 : (0 : ℤ) ≤ sn := by omega
    have h1 : (0 : ℚ) ≤ (sn : ℚ) := by exact_mod_cast h0
    positivity
  have hrN : sn.toNat ≤ r * N := by
    have h1 : ((sn : ℚ)) / (N : ℚ) ≤ ((repeats_needed sn N : ℤ) : ℚ) :=
      Int.le_ceil _
    have h2 : (sn : ℚ) ≤ ((repeats_needed sn N : ℤ) : ℚ) * (N : ℚ) := by
      rwa [div_le_iff₀ (by exact_mod_cast hN : (0 : ℚ) < (N : ℚ))] at h1
    have h3 : sn ≤ repeats_needed sn N * (N : ℤ) := by exact_mod_cast h2
    have h5 : ((r : ℤ)) = repeats_needed sn N := Int.toNat_of_nonneg hceil0
    rw [Int.toNat_le]
    push_cast
    rw [h5]
    exact h3
  have hlen_body :
      (((List.range r).map (fun i => shuffle i image_files)).flatten).length
        = r * N := by
    rw [List.length_flatten, List.map_map]
    have hrep : ((List.range r).map (List.length ∘ fun i => shuffle i image_files))
        = List.replicate r N := by
      apply List.eq_replicate_iff.mpr
      refine ⟨by simp, ?_⟩
      intro b hb
      rw [List.mem_map] at hb
      obtain ⟨i, _, rfl⟩ := hb
      exact (hsh i).length_eq
    rw [hrep, List.sum_replicate, smul_eq_mul]
  have hshape : extended_image_list posterPath image_files shuffle sn
      = (posterPath ::
          ((List.range r).map (fun i => shuffle i image_files)).flatten).take
            sn.toNat := rfl
  obtain ⟨k, hk⟩ : ∃ k, sn.toNat = k + 1 := ⟨sn.toNat - 1, by omega⟩
  refine ⟨?_, by omega, ?_, ?_⟩
  · rw [hshape, List.length_take, List.length_cons, hlen_body]
    omega
  · rw [hshape, hk, List.take_succ_cons, List.head?_cons]
  · intro x hx
    rw [hshape, hk, List.take_succ_cons, List.tail_cons] at hx
    have hx2 : x ∈ ((List.range r).map (fun i => shuffle i image_files)).flatten :=
      List.take_subset _ _ hx
    rw [List.mem_flatten] at hx2
    obtain ⟨l, hl, hxl⟩ := hx2
    rw [List.mem_map] at hl
    obtain ⟨i, _, rfl⟩ := hl
    exact ((hsh i).mem_iff).mp hxl

/-- Claim C1, witness: the spec's own worked example `D = 95`, `S = 30`,
catalog of 4 images. -/
theorem plan_poster_and_length_instance :
    (extended_image_list "poster" ["a", "b", "c", "d"] (fun _ l => l.reverse)
        (slides_needed 95 30)).length = (slides_needed 95 30).toNat
    ∧ 1 ≤ (slides_needed 95 30).toNat
    ∧ (extended_image_list "poster" ["a", "b", "c", "d"] (fun _ l => l.reverse)
        (slides_needed 95 30)).head? = some "poster"
    ∧ ∀ x ∈ (extended_image_list "poster" ["a", "b", "c", "d"]
        (fun _ l => l.reverse) (slides_needed 95 30)).tail,
        x ∈ ["a", "b", "c", "d"] :=
  plan_poster_and_length 95 30 (by norm_num) (by norm_num) "poster" _
    (by decide) _ (fun _ => List.reverse_perm _)

/-- Claim C2: for `D > 0` and `S > 0`, the trimmed playable duration of the
chained timeline of `ceil(D/S)` slides of `S` seconds each equals `D`
exactly (so in particular never exceeds `D`), and trimming cuts only the
tail: the slide visible at any time `t < D` is the same before and after the
trim (no re-render). -/
theorem timeline_trim_exact (total_duration slide_duration : ℚ)
    (hD : 0 < total_duration) (hS : 0 < slide_duration) :
    trimmed_duration
        (concat_duration (slides_needed total_duration slide_duration).toNat
          slide_duration) total_duration = total_duration
    ∧ trimmed_duration
        (concat_duration (slides_needed total_duration slide_duration).toNat
          slide_duration) total_duration ≤ total_duration
    ∧ ∀ (plan : List String) (t : ℚ), 0 ≤ t → t < total_duration →
        visible_slide plan slide_duration
            (trimmed_duration
              (concat_duration
                (slides_needed total_duration slide_duration).toNat
                slide_duration) total_duration) t
          = visible_slide plan slide_duration
              (concat_duration
                (slides_needed total_duration slide_duration).toNat
                slide_duration) t := by
  have hceil : total_duration / slide_duration
      ≤ ((slides_needed total_duration slide_duration : ℤ) : ℚ) := Int.le_ceil _
  have hpos : 0 < slides_needed total_duration slide_duration :=
    Int.ceil_pos.mpr (div_pos hD hS)
  have hcast : (((slides_needed total_duration slide_duration).toNat : ℕ) : ℚ)
      = ((slides_needed total_duration slide_duration : ℤ) : ℚ) := by
    exact_mod_cast congrArg (fun z : ℤ => (z : ℚ))
      (Int.toNat_of_nonneg hpos.le)
  have hge : total_duration
      ≤ concat_duration (slides_needed total_duration slide_duration).toNat
          slide_duration := by
    unfold concat_duration
    rw [hcast]
    rwa [div_le_iff₀ hS] at hceil
  have htrim : trimmed_duration
      (concat_duration (slides_needed total_duration slide_duration).toNat
        slide_duration) total_duration = total_duration := by
    unfold trimmed_duration
    split
    · rfl
    · next h => exact le_antisymm (not_lt.mp h) hge
  refine ⟨htrim, le_of_eq htrim, ?_⟩
  intro plan t ht0 htD
  rw [htrim]
  unfold visible_slide
  rw [if_pos ⟨ht0, htD⟩, if_pos ⟨ht0, lt_of_lt_of_le htD hge⟩]

/-- Claim C2, witness at `D = 95`, `S = 30`. -/
theorem timeline_trim_exact_instance :
    trimmed_duration (concat_duration (slides_needed 95 30).toNat 30) 95 = 95
    ∧ trimmed_duration (concat_duration (slides_needed 95 30).toNat 30) 95 ≤ 95
    ∧ ∀ (plan : List String) (t : ℚ), 0 ≤ t → t < 95 →
        visible_slide plan 30
            (trimmed_duration (concat_duration (slides_needed 95 30).toNat 30)
              95) t
          = visible_slide plan 30
              (concat_duration (slides_needed 95 30).toNat 30) t :=
  timeline_trim_exact 95 30 (by norm_num) (by norm_num)

/-- Claim C8: for every random source (each pass an independent outcome of
`random.shuffle`, i.e. a permutation of the full filtered set), every pass
of the plan body is duplicate-free, has the full catalog size, and contains
each catalog image exactly once — so within a pass no image appears twice
before all `N` images have appeared once, and pass boundaries are the
boundaries of genuinely separate permutations. -/
theorem shuffle_pass_distinct (image_files : List String)
    (hnd : image_files.Nodup) (shuffle : ℕ → List String → List String)
    (hsh : ∀ i, (shuffle i image_files).Perm image_files) :
    (∀ (posterPath : String) (sn : ℤ),
      extended_image_list posterPath image_files shuffle sn
        = (posterPath ::
            ((List.range (repeats_needed sn image_files.length).toNat).map
              (fun i => shuffle i image_files)).flatten).take sn.toNat)
    ∧ ∀ i : ℕ, (shuffle i image_files).Nodup
      ∧ (shuffle i image_files).length = image_files.length
      ∧ (∀ x, x ∈ shuffle i image_files ↔ x ∈ image_files)
      ∧ (∀ x ∈ image_files, (shuffle i image_files).count x = 1) := by
  refine ⟨fun posterPath sn => rfl, ?_⟩
  intro i
  have hp := hsh i
  refine ⟨hp.nodup_iff.mpr hnd, hp.length_eq, fun x => hp.mem_iff,
    fun x hx => ?_⟩
  rw [hp.count_eq]
  exact List.count_eq_one_of_mem hnd hx

/-- Claim C8, witness: two concrete distinct passes over a 3-image catalog. -/
theorem shuffle_pass_distinct_instance :
    (["b", "c", "a"] : List String).Nodup
    ∧ (["b", "c", "a"] : List String).length = (["a", "b", "c"] : List String).length
    ∧ (∀ x, x ∈ (["b", "c", "a"] : List String) ↔ x ∈ (["a", "b", "c"] : List String))
    ∧ (∀ x ∈ (["a", "b", "c"] : List String),
        (["b", "c", "a"] : List String).count x = 1) :=
  (shuffle_pass_distinct ["a", "b", "c"] (by decide)
    (fun i l => if i = 0 then ["b", "c", "a"] else ["c", "a", "b"])
    (fun i => by beta_reduce; split <;> decide)).2 0

/-- Claim C4: for every source image with positive dimensions, the slide
canvas is exactly 1920x1080 (as fixed by `__init__`), the resize branch is
selected by comparing `img_ratio = w/h` with the canvas ratio (wider scales
to full canvas width, otherwise to full canvas height), the resized
dimensions never exceed the canvas, the paste stays inside the canvas with
left/right and top/bottom margins differing by at most one pixel (centred),
and every canvas pixel outside the pasted rectangle is black. -/
theorem aspect_fit_contract (w h : ℕ) (hw : 0 < w) (hh : 0 < h) :
    (resize_dims w h).1 ≤ 1920 ∧ (resize_dims w h).2 ≤ 1080
    ∧ ((1920 : ℚ) / 1080 < (w : ℚ) / h → (resize_dims w h).1 = 1920)
    ∧ (¬ (1920 : ℚ) / 1080 < (w : ℚ) / h → (resize_dims w h).2 = 1080)
    ∧ (paste_pos (resize_dims w h).1 (resize_dims w h).2).1
        + (resize_dims w h).1 ≤ 1920
    ∧ (paste_pos (resize_dims w h).1 (resize_dims w h).2).2
        + (resize_dims w h).2 ≤ 1080
    ∧ 2 * (paste_pos (resize_dims w h).1 (resize_dims w h).2).1
        ≤ 1920 - (resize_dims w h).1
    ∧ (1920 - (resize_dims w h).1)
        - 2 * (paste_pos (resize_dims w h).1 (resize_dims w h).2).1 ≤ 1
    ∧ 2 * (paste_pos (resize_dims w h).1 (resize_dims w h).2).2
        ≤ 1080 - (resize_dims w h).2
    ∧ (1080 - (resize_dims w h).2)
        - 2 * (paste_pos (resize_dims w h).1 (resize_dims w h).2).2 ≤ 1
    ∧ (∀ (resized : ℕ → ℕ → RGB) (x y : ℕ),
        ¬ ((paste_pos (resize_dims w h).1 (resize_dims w h).2).1 ≤ x
          ∧ x < (paste_pos (resize_dims w h).1 (resize_dims w h).2).1
              + (resize_dims w h).1
          ∧ (paste_pos (resize_dims w h).1 (resize_dims w h).2).2 ≤ y
          ∧ y < (paste_pos (resize_dims w h).1 (resize_dims w h).2).2
              + (resize_dims w h).2) →
        letterboxed w h resized x y = (0, 0, 0))
    ∧ (∀ (a b c : String) (de me : Bool) (si : Option SongInfo)
        (g : SlideShowGenerator),
        SlideShowGenerator.init a b c de me si = .ok g →
        g.width = 1920 ∧ g.height = 1080) := by
  have hcond : ((1920 : ℚ) / 1080 < (w : ℚ) / h) ↔ 1920 * h < 1080 * w := by
    rw [div_lt_div_iff₀ (by norm_num) (by exact_mod_cast hh)]
    constructor
    · intro hlt
      have : (1920 : ℚ) * h < 1080 * w := by linarith
      exact_mod_cast this
    · intro hlt
      have : ((1920 * h : ℕ) : ℚ) < ((1080 * w : ℕ) : ℚ) := by exact_mod_cast hlt
      push_cast at this
      linarith
  have hdims : (resize_dims w h).1 ≤ 1920 ∧ (resize_dims w h).2 ≤ 1080 := by
    unfold resize_dims
    split
    · next hc =>
      refine ⟨le_refl _, ?_⟩
      have hlt : 1920 * h < 1080 * w := hcond.mp hc
      have := (Nat.div_lt_iff_lt_mul hw).mpr (by omega : 1920 * h < 1080 * w)
      exact this.le
    · next hc =>
      have hle : 1080 * w ≤ 1920 * h := by
        have := (not_iff_not.mpr hcond).mp hc
        omega
      refine ⟨?_, le_refl _⟩
      calc 1080 * w / h ≤ 1920 * h / h := Nat.div_le_div_right hle
        _ = 1920 := Nat.mul_div_cancel 1920 hh
  have hbranch1 : (1920 : ℚ) / 1080 < (w : ℚ) / h → (resize_dims w h).1 = 1920 := by
    intro hc
    unfold resize_dims
    rw [if_pos hc]
  have hbranch2 : ¬ (1920 : ℚ) / 1080 < (w : ℚ) / h →
      (resize_dims w h).2 = 1080 := by
    intro hc
    unfold resize_dims
    rw [if_neg hc]
  obtain ⟨hd1, hd2⟩ := hdims
  have hpaste : (paste_pos (resize_dims w h).1 (resize_dims w h).2).1
      = (1920 - (resize_dims w h).1) / 2
      ∧ (paste_pos (resize_dims w h).1 (resize_dims w h).2).2
      = (1080 - (resize_dims w h).2) / 2 := ⟨rfl, rfl⟩
  refine ⟨hd1, hd2, hbranch1, hbranch2, ?_, ?_, ?_, ?_, ?_, ?_, ?_, ?_⟩
  · rw [hpaste.1]; omega
  · rw [hpaste.2]; omega
  · rw [hpaste.1]; omega
  · rw [hpaste.1]; omega
  · rw [hpaste.2]; omega
  · rw [hpaste.2]; omega
  · intro resized x y hout
    unfold letterboxed
    rw [if_neg hout]
  · intro a b c de me si g hg
    match si with
    | none => cases hg
    | some si =>
      rw [SlideShowGenerator.init] at hg
      match hl : List.lookup "Song" si with
      | none => rw [hl] at hg; cases hg
      | some (.list _) => rw [hl] at hg; cases hg
      | some (.str song) =>
        simp only [hl] at hg
        by_cases hde : de = false
        · rw [if_pos hde] at hg; cases hg
        · rw [if_neg hde] at hg
          by_cases hme : me = false
          · rw [if_pos hme] at hg; cases hg
          · rw [if_neg hme] at hg
            cases hg
            exact ⟨rfl, rfl⟩

/-- Claim C4, witness at a 4:3 source image (800 x 600). -/
theorem aspect_fit_contract_instance :
    (resize_dims 800 600).1 ≤ 1920 ∧ (resize_dims 800 600).2 ≤ 1080 ∧
      ((1920 : ℚ) / 1080 < (800 : ℚ) / 600 → (resize_dims 800 600).1 = 1920) :=
  ⟨(aspect_fit_contract 800 600 (by norm_num) (by norm_num)).1,
    (aspect_fit_contract 800 600 (by norm_num) (by norm_num)).2.1,
    (aspect_fit_contract 800 600 (by norm_num) (by norm_num)).2.2.1⟩

/-- Claim C6: catalog filtering returns exactly the files of the directory
listing whose name case-insensitively ends in one of
`{jpg, jpeg, png, bmp, gif}` AND begins with a singer key followed by the
`.` separator (each joined onto the directory); a missing image directory
fails with the `ValueError` of `__init__` line 61 (the spec's
`ConfigurationError`), and an empty filtered catalog makes the pipeline fail
with the `ValueError` of line 145 before any further work. -/
theorem catalog_filter_contract :
    (∀ (images_dir music_path output_path : String) (me : Bool)
        (si : SongInfo) (name : String),
      List.lookup "Song" si = some (.str name) →
      SlideShowGenerator.init images_dir music_path output_path false me
          (some si)
        = .error (.valueError
            ("Image directory " ++ images_dir ++ " does not exist")))
    ∧ (∀ (images_dir : String) (dir_listing singers : List String)
        (f : String),
      f ∈ listImageFiles images_dir dir_listing singers
        ↔ ∃ f0, f0 ∈ dir_listing
            ∧ (∃ e ∈ imageExtensions, strEndsWith (pyLower f0) e = true)
            ∧ (∃ k ∈ singers, strStartsWith f0 (k ++ ".") = true)
            ∧ f = joinPath images_dir f0)
    ∧ (∀ (g : SlideShowGenerator) (dir_listing : List String) (sv : SVal)
        (we : ℤ) (ao : Bool) (ad : ℚ) (dec : String → Bool)
        (sh : ℕ → List String → List String) (S ct : ℚ),
      List.lookup "Singers Images" g.song_info = some sv →
      listImageFiles g.images_dir dir_listing (svalKeys sv) = [] →
      create_music_driven_slideshow g dir_listing we ao ad dec sh S ct
        = .error
            (.valueError "No image files found in the specified directory")) := by
  refine ⟨?_, ?_, ?_⟩
  · intro d m o me si name hsong
    simp only [SlideShowGenerator.init, hsong]
    rw [if_pos trivial]
  · intro d dir_listing singers f
    simp only [listImageFiles, List.mem_map, List.mem_filter, isImageFile,
      matchesSinger, List.any_eq_true, Bool.and_eq_true]
    constructor
    · rintro ⟨f0, ⟨hmem, hext, hkey⟩, rfl⟩
      exact ⟨f0, hmem, hext, hkey, rfl⟩
    · rintro ⟨f0, hmem, hext, hkey, rfl⟩
      exact ⟨f0, ⟨hmem, hext, hkey⟩, rfl⟩
  · intro g dir_listing sv we ao ad dec sh S ct h1 h2
    simp only [create_music_driven_slideshow, h1, h2, List.isEmpty_nil,
      if_true]

/-- Claim C6, witness: a listing whose only file matches no singer key is
rejected with the line-145 error, applied to the concrete fixture. -/
theorem catalog_filter_contract_instance :
    create_music_driven_slideshow sampleGen ["b.1.png"] 0 true 3
        (fun _ => true) (fun _ l => l) 3 10
      = .error (.valueError "No image files found in the specified directory") :=
  catalog_filter_contract.2.2 sampleGen ["b.1.png"] (SVal.list ["a"]) 0 true 3
    (fun _ => true) (fun _ l => l) 3 10 rfl (by decide)

/-- A zero audio duration gives `slides_needed = 0`, an empty plan, and a
successful (`ok`) run of the slideshow code: no validation rejects it. -/
lemma create_zero_duration (g : SlideShowGenerator) (dir_listing : List String)
    (wget_exit : ℤ) (decodable : String → Bool)
    (shuffle : ℕ → List String → List String) (S ct : ℚ) (hct : 0 ≤ ct)
    (sv pv songv : SVal)
    (h1 : List.lookup "Singers Images" g.song_info = some sv)
    (h2 : ¬ listImageFiles g.images_dir dir_listing (svalKeys sv) = [])
    (h3 : List.lookup "Poster Image" g.song_info = some pv)
    (h4 : List.lookup "Song" g.song_info = some songv) :
    create_music_driven_slideshow g dir_listing wget_exit true 0 decodable
        shuffle S ct
      = .ok { plan := [], final_duration := 0, frame_captured := false,
              video_path := g.video_path, frame_path := g.frame_path } := by
  have hsn : slides_needed 0 S = 0 := by
    unfold slides_needed
    rw [zero_div, Int.ceil_zero]
  have hplan : ∀ posterPath,
      extended_image_list posterPath
        (listImageFiles g.images_dir dir_listing (svalKeys sv)) shuffle
        (slides_needed 0 S) = [] := by
    intro posterPath
    rw [extended_image_list, hsn]
    rfl
  have hcap : decide (ct < (0 : ℚ)) = false := decide_eq_false (not_lt.mpr hct)
  simp only [create_music_driven_slideshow, h1, h3, h4]
  rw [if_neg (by simpa [List.isEmpty_iff] using h2), if_neg (by simp),
    hplan]
  simp only [List.find?_nil, List.length_nil, hcap]
  have hdur : trimmed_duration (concat_duration 0 S) 0 = 0 := by
    simp [trimmed_duration, concat_duration]
  simp only [hdur, hcap]

/-- Claim C5, counterexample: with zero-length audio (`slides_needed = 0`)
the slideshow code raises NO error — planning succeeds with an empty plan
and the empty list is passed straight on to rendering and concatenation
(the run returns `ok` in this model, which treats the external concatenator
as total). -/
theorem zero_slides_no_error_counterexample :
    create_music_driven_slideshow sampleGen ["a.1.jpg"] 0 true 0
        (fun _ => true) (fun _ l => l) 3 10
      = .ok { plan := [], final_duration := 0, frame_captured := false,
              video_path := "out/X.mp4", frame_path := "out/X.jpg" } :=
  create_zero_duration sampleGen ["a.1.jpg"] 0 (fun _ => true) (fun _ l => l)
    3 10 (by norm_num) (SVal.list ["a"])
    (SVal.str "http://example.com/p.jpg") (SVal.str "X") rfl (by decide) rfl
    rfl

/-- Claim C5, amended: if `slides_needed = 0` (zero-length audio), the code
performs no validation at all — there is no `ConfigurationError`; the plan
is the empty list, it IS passed on to rendering and timeline assembly, and
the run completes with an empty timeline of duration `0`. -/
theorem zero_slides_empty_plan_ok (g : SlideShowGenerator)
    (dir_listing : List String) (wget_exit : ℤ) (decodable : String → Bool)
    (shuffle : ℕ → List String → List String) (S ct : ℚ) (hct : 0 ≤ ct)
    (sv pv songv : SVal)
    (h1 : List.lookup "Singers Images" g.song_info = some sv)
    (h2 : ¬ listImageFiles g.images_dir dir_listing (svalKeys sv) = [])
    (h3 : List.lookup "Poster Image" g.song_info = some pv)
    (h4 : List.lookup "Song" g.song_info = some songv) :
    slides_needed 0 S = 0
    ∧ create_music_driven_slideshow g dir_listing wget_exit true 0 decodable
        shuffle S ct
      = .ok { plan := [], final_duration := 0, frame_captured := false,
              video_path := g.video_path, frame_path := g.frame_path } := by
  constructor
  · unfold slides_needed
    rw [zero_div, Int.ceil_zero]
  · exact create_zero_duration g dir_listing wget_exit decodable shuffle S ct
      hct sv pv songv h1 h2 h3 h4

/-- Claim C5, witness for the amended theorem at concrete inputs. -/
theorem zero_slides_empty_plan_ok_instance :
    slides_needed 0 5 = 0
    ∧ create_music_driven_slideshow sampleGen ["a.2.PNG"] 7 true 0
        (fun _ => false) (fun _ l => l.reverse) 5 2
      = .ok { plan := [], final_duration := 0, frame_captured := false,
              video_path := "out/X.mp4", frame_path := "out/X.jpg" } :=
  zero_slides_empty_plan_ok sampleGen ["a.2.PNG"] 7 (fun _ => false)
    (fun _ l => l.reverse) 5 2 (by norm_num) (SVal.list ["a"])
    (SVal.str "http://example.com/p.jpg") (SVal.str "X") rfl (by decide) rfl
    rfl

/-- Evaluation of a full run over the concrete fixture (three-second audio,
three-second slides): the run reaches the rendering stage with the
single-entry plan `[poster]` whatever the `wget` exit status was, and its
outcome depends only on whether the poster file decodes. -/
lemma create_sample_run (we : ℤ) (dec : String → Bool) :
    create_music_driven_slideshow sampleGen ["a.1.jpg"] we true 3 dec
        (fun _ l => l) 3 10
      = match (["out/X Poster.jpg"] : List String).find? (fun p => !(dec p)) with
        | some p => .error (.decodeError p)
        | none => .ok { plan := ["out/X Poster.jpg"], final_duration := 3,
                        frame_captured := false, video_path := "out/X.mp4",
                        frame_path := "out/X.jpg" } := by
  have h1 : List.lookup "Singers Images" sampleGen.song_info
      = some (SVal.list ["a"]) := by decide
  have hfiles : listImageFiles sampleGen.images_dir ["a.1.jpg"]
      (svalKeys (SVal.list ["a"])) = ["imgs/a.1.jpg"] := by decide
  have h3 : List.lookup "Poster Image" sampleGen.song_info
      = some (SVal.str "http://example.com/p.jpg") := by decide
  have h4 : List.lookup "Song" sampleGen.song_info = some (SVal.str "X") := by
    decide
  have hsn : slides_needed 3 3 = 1 := by
    unfold slides_needed
    norm_num
  have hrep : repeats_needed 1 (List.length (["imgs/a.1.jpg"] : List String))
      = 1 := by
    norm_num [repeats_needed]
  have hpp : joinPath sampleGen.output_path
      (svalStr (SVal.str "X") ++ " Poster.jpg") = "out/X Poster.jpg" := by
    decide
  have hplan : extended_image_list
      (joinPath sampleGen.output_path (svalStr (SVal.str "X") ++ " Poster.jpg"))
      ["imgs/a.1.jpg"] (fun _ l => l) (slides_needed 3 3)
      = ["out/X Poster.jpg"] := by
    simp only [extended_image_list, hsn, hrep, hpp]
    decide
  have hdur : trimmed_duration
      (concat_duration (List.length (["out/X Poster.jpg"] : List String)) 3) 3
      = 3 := by
    norm_num [trimmed_duration, concat_duration]
  have hcap : decide ((10 : ℚ) < 3) = false := by norm_num
  simp only [create_music_driven_slideshow, h1, hfiles, h3, h4]
  rw [if_neg (by decide : ¬ (["imgs/a.1.jpg"] : List String).isEmpty = true),
    if_neg (by simp : ¬ (true = false))]
  simp only [hplan, hdur, hcap]
  rfl

/-- Claim C7, counterexample: a failed poster fetch (`wget` exit status 1)
does NOT abort the run — with every image decodable the pipeline still
plans, renders and writes its outputs, returning the full successful
result. -/
theorem poster_fetch_failure_ignored_counterexample :
    create_music_driven_slideshow sampleGen ["a.1.jpg"] 1 true 3
        (fun _ => true) (fun _ l => l) 3 10
      = .ok { plan := ["out/X Poster.jpg"], final_duration := 3,
              frame_captured := false, video_path := "out/X.mp4",
              frame_path := "out/X.jpg" } := by
  rw [create_sample_run]
  rfl

/-- Claim C7, amended: `subprocess.run` is called without `check=True`, so
the `wget` exit status is ignored: the pipeline behaves identically for any
two exit statuses, and a failed fetch surfaces only later — here the
undecodable poster file aborts the run with a decode (asset) error at the
rendering stage, after catalog filtering, audio probing and planning have
already happened, not with any network error at fetch time. -/
theorem wget_exit_ignored :
    (∀ (g : SlideShowGenerator) (dir_listing : List String) (e1 e2 : ℤ)
        (audio_opens : Bool) (audio_duration : ℚ) (decodable : String → Bool)
        (shuffle : ℕ → List String → List String) (S ct : ℚ),
      create_music_driven_slideshow g dir_listing e1 audio_opens
          audio_duration decodable shuffle S ct
        = create_music_driven_slideshow g dir_listing e2 audio_opens
            audio_duration decodable shuffle S ct)
    ∧ create_music_driven_slideshow sampleGen ["a.1.jpg"] 1 true 3
        (fun p => !(p == "out/X Poster.jpg")) (fun _ l => l) 3 10
      = .error (.decodeError "out/X Poster.jpg") := by
  constructor
  · intro g dir_listing e1 e2 ao ad dec sh S ct
    rfl
  · rw [create_sample_run]
    rfl
